import Mathlib

/-!
Verification of the notification core of the alumni-scheduler repository
(source file: notifications.py).

The embedding below translates the Python code into Lean definitions:

* Python dict values appearing in template variable maps become the
  inductive type PyVal (strings, integers, booleans).
* Python dicts with string keys become insertion-ordered association
  lists, with dictGet / dictSet mirroring d[k] lookup and d[k] = v
  assignment (replace in place, else append), exactly the observable
  behaviour of CPython dicts.
* The Jinja2 templates stored in NotificationTemplate.templates are
  transcribed as small ASTs (literal text, variable interpolation, and
  the two conditional forms that occur in the corpus); rendering follows
  the documented Jinja2 semantics for the default Undefined type: an
  undefined variable prints as the empty string and is falsy in a bare
  boolean test, but any ordering comparison on it raises UndefinedError.
  Leading indentation of the triple-quoted template bodies is normalised;
  no claim depends on whitespace.
* Each provider's underlying transport (SendGrid / Flask-Mail, Twilio,
  FCM) sits behind try/except blocks that convert every outcome into a
  plain bool, so a transport is modelled as a pure bool-valued oracle.
* Python exceptions that can escape a modelled function are made explicit
  with Except; the only raising point reachable inside
  NotificationManager.send_notification is the unguarded user['email']
  indexing (a KeyError), on both the send path and the opted-out
  logging path.
-/

/-- Values stored in a template variable map (Python dict values). -/
inductive PyVal where
  | str : String → PyVal
  | int : Int → PyVal
  | bool : Bool → PyVal
deriving DecidableEq, Repr

/-- Python str() of a value, as Jinja2 prints it during interpolation. -/
def pyStr : PyVal → String
  | PyVal.str s => s
  | PyVal.int n => toString n
  | PyVal.bool b => if b then "True" else "False"

/-- Python truthiness of a value. -/
def pyTruthy : PyVal → Bool
  | PyVal.str s => !s.isEmpty
  | PyVal.int n => n != 0
  | PyVal.bool b => b

/-- Lookup in an insertion-ordered association list (Python d.get(k)). -/
def dictGet {α : Type} : List (String × α) → String → Option α
  | [], _ => none
  | p :: rest, k => if p.1 = k then some p.2 else dictGet rest k

/-- Assignment d[k] = v on an insertion-ordered association list: replace
the existing binding in place, otherwise append, exactly as a CPython
dict preserves insertion order on overwrite. -/
def dictSet {α : Type} : List (String × α) → String → α → List (String × α)
  | [], k, v => [(k, v)]
  | p :: rest, k, v => if p.1 = k then (k, v) :: rest else p :: dictSet rest k v

/-- One atomic piece of a Jinja2 template: literal text or a variable
interpolation of the form double-brace name double-brace. -/
inductive TmplAtom where
  | lit : String → TmplAtom
  | var : String → TmplAtom
deriving DecidableEq, Repr

/-- One node of a Jinja2 template as used in the template corpus of
NotificationTemplate: an atom, a conditional guarded by a greater-than-zero
comparison (the guests block of rsvp_confirmation), or a conditional
guarded by bare truthiness (the notes block of rsvp_confirmation). -/
inductive TmplNode where
  | atom : TmplAtom → TmplNode
  | condGtZero : String → List TmplAtom → TmplNode
  | condTruthy : String → List TmplAtom → TmplNode
deriving DecidableEq, Repr

/-- Shorthand for a literal-text node. -/
def tlit (s : String) : TmplNode := TmplNode.atom (TmplAtom.lit s)

/-- Shorthand for a variable-interpolation node. -/
def tvar (s : String) : TmplNode := TmplNode.atom (TmplAtom.var s)

/-- Render one atom: interpolation of a variable that is absent from the
map prints as the empty string (Jinja2 default Undefined prints empty). -/
def renderAtom (vars : List (String × PyVal)) : TmplAtom → String
  | TmplAtom.lit s => s
  | TmplAtom.var k =>
    match dictGet vars k with
    | none => ""
    | some v => pyStr v

/-- Render a list of atoms by concatenation. -/
def renderAtoms (vars : List (String × PyVal)) : List TmplAtom → String
  | [] => ""
  | a :: rest => renderAtom vars a ++ renderAtoms vars rest

/-- Render one node. Jinja2 semantics for the default Undefined type:
an undefined variable is falsy in a bare boolean test, but an ordering
comparison on it raises UndefinedError; comparing a string against the
integer 0 raises TypeError in Python 3. -/
def renderNode (vars : List (String × PyVal)) : TmplNode → Except String String
  | TmplNode.atom a => Except.ok (renderAtom vars a)
  | TmplNode.condGtZero k body =>
    match dictGet vars k with
    | none => Except.error ("UndefinedError: " ++ k ++ " is undefined")
    | some (PyVal.int n) => Except.ok (if 0 < n then renderAtoms vars body else "")
    | some (PyVal.bool b) => Except.ok (if b then renderAtoms vars body else "")
    | some (PyVal.str _) => Except.error "TypeError: unorderable types str and int"
  | TmplNode.condTruthy k body =>
    match dictGet vars k with
    | none => Except.ok ""
    | some v => Except.ok (if pyTruthy v then renderAtoms vars body else "")

/-- Render a node list left to right, propagating the first error. -/
def renderNodes (vars : List (String × PyVal)) : List TmplNode → Except String String
  | [] => Except.ok ""
  | n :: rest =>
    match renderNode vars n with
    | Except.error e => Except.error e
    | Except.ok s =>
      match renderNodes vars rest with
      | Except.error e => Except.error e
      | Except.ok t => Except.ok (s ++ t)

/-- A node list is comparison-free when it contains no greater-than-zero
conditional (the construct on which Jinja2 raises for a missing key). -/
def hasCmpCond (nodes : List TmplNode) : Bool :=
  nodes.any fun n =>
    match n with
    | TmplNode.condGtZero _ _ => true
    | _ => false

/-- Slots of the event_created template (notifications.py lines 45-62). -/
def event_created_tmpl : List (String × List TmplNode) :=
  [("subject", [tlit "New Alumni Event: ", tvar "event_title"]),
   ("email_body",
     [tlit "\n<h2>New Alumni Event</h2>\n<p>Hello ", tvar "user_name",
      tlit ",</p>\n<p>A new event has been scheduled:</p>\n<h3>", tvar "event_title",
      tlit "</h3>\n<p><strong>Date:</strong> ", tvar "start_time",
      tlit "</p>\n<p><strong>Location:</strong> ", tvar "venue",
      tlit "</p>\n<p><strong>Description:</strong></p>\n<p>", tvar "description",
      tlit "</p>\n<p><a href=\"", tvar "rsvp_link",
      tlit "\">RSVP Now</a></p>\n<p>Best regards,<br>Alumni Association</p>\n"]),
   ("sms_body",
     [tlit "New event: ", tvar "event_title", tlit " on ", tvar "start_time",
      tlit " at ", tvar "venue", tlit ". RSVP: ", tvar "rsvp_link"]),
   ("push_title", [tlit "New Alumni Event"]),
   ("push_body",
     [tvar "event_title", tlit " - ", tvar "start_time", tlit " at ", tvar "venue"])]

/-- Slots of the rsvp_confirmation template (notifications.py lines 63-84);
its email body carries the two conditional blocks of the corpus. -/
def rsvp_confirmation_tmpl : List (String × List TmplNode) :=
  [("subject", [tlit "RSVP Confirmation: ", tvar "event_title"]),
   ("email_body",
     [tlit "\n<h2>RSVP Confirmation</h2>\n<p>Hello ", tvar "user_name",
      tlit ",</p>\n<p>Thank you for RSVPing <strong>", tvar "status",
      tlit "</strong> to:</p>\n<h3>", tvar "event_title",
      tlit "</h3>\n<p><strong>Date:</strong> ", tvar "start_time",
      tlit "</p>\n<p><strong>Location:</strong> ", tvar "venue",
      tlit "</p>\n",
      TmplNode.condGtZero "guests"
        [TmplAtom.lit "<p><strong>Guests:</strong> ", TmplAtom.var "guests",
         TmplAtom.lit "</p>\n"],
      TmplNode.condTruthy "notes"
        [TmplAtom.lit "<p><strong>Notes:</strong> ", TmplAtom.var "notes",
         TmplAtom.lit "</p>\n"],
      tlit "<p><a href=\"", tvar "event_link",
      tlit "\">View Event Details</a></p>\n<p>Best regards,<br>Alumni Association</p>\n"]),
   ("sms_body",
     [tlit "RSVP confirmed: ", tvar "status", tlit " for ", tvar "event_title",
      tlit " on ", tvar "start_time"]),
   ("push_title", [tlit "RSVP Confirmed"]),
   ("push_body", [tlit "You\x27re ", tvar "status", tlit " for ", tvar "event_title"])]

/-- Slots of the event_reminder template (notifications.py lines 85-101). -/
def event_reminder_tmpl : List (String × List TmplNode) :=
  [("subject", [tlit "Event Reminder: ", tvar "event_title"]),
   ("email_body",
     [tlit "\n<h2>Event Reminder</h2>\n<p>Hello ", tvar "user_name",
      tlit ",</p>\n<p>Don\x27t forget! This event is coming up soon:</p>\n<h3>", tvar "event_title",
      tlit "</h3>\n<p><strong>Date:</strong> ", tvar "start_time",
      tlit "</p>\n<p><strong>Location:</strong> ", tvar "venue",
      tlit "</p>\n<p><strong>Time until event:</strong> ", tvar "time_until",
      tlit "</p>\n<p><a href=\"", tvar "event_link",
      tlit "\">View Event Details</a></p>\n<p>Best regards,<br>Alumni Association</p>\n"]),
   ("sms_body",
     [tlit "Reminder: ", tvar "event_title", tlit " in ", tvar "time_until",
      tlit " at ", tvar "venue"]),
   ("push_title", [tlit "Event Reminder"]),
   ("push_body", [tvar "event_title", tlit " is in ", tvar "time_until"])]

/-- Slots of the event_cancelled template (notifications.py lines 102-117). -/
def event_cancelled_tmpl : List (String × List TmplNode) :=
  [("subject", [tlit "Event Cancelled: ", tvar "event_title"]),
   ("email_body",
     [tlit "\n<h2>Event Cancelled</h2>\n<p>Hello ", tvar "user_name",
      tlit ",</p>\n<p>We regret to inform you that the following event has been cancelled:</p>\n<h3>",
      tvar "event_title",
      tlit "</h3>\n<p><strong>Was scheduled for:</strong> ", tvar "start_time",
      tlit "</p>\n<p><strong>Reason:</strong> ", tvar "cancellation_reason",
      tlit "</p>\n<p>We apologize for any inconvenience.</p>\n<p>Best regards,<br>Alumni Association</p>\n"]),
   ("sms_body",
     [tlit "Event cancelled: ", tvar "event_title", tlit " - ", tvar "cancellation_reason"]),
   ("push_title", [tlit "Event Cancelled"]),
   ("push_body", [tvar "event_title", tlit " has been cancelled"])]

/-- The template table self.templates of NotificationTemplate. -/
def templates : List (String × List (String × List TmplNode)) :=
  [("event_created", event_created_tmpl),
   ("rsvp_confirmation", rsvp_confirmation_tmpl),
   ("event_reminder", event_reminder_tmpl),
   ("event_cancelled", event_cancelled_tmpl)]

/-- NotificationTemplate.render_template (notifications.py lines 120-130):
unknown template name and unknown slot raise ValueError; otherwise the
Jinja2 template is rendered with the given variable map. -/
def render_template (template_name template_type : String)
    (vars : List (String × PyVal)) : Except String String :=
  match dictGet templates template_name with
  | none => Except.error ("Template " ++ template_name ++ " not found")
  | some slots =>
    match dictGet slots template_type with
    | none =>
      Except.error ("Template type " ++ template_type ++ " not found in " ++ template_name)
    | some nodes => renderNodes vars nodes

/-- Transport oracles. In the source every transport call is wrapped in
try/except and converted to a plain bool (EmailNotificationService.send_email,
SMSNotificationService.send_sms, PushNotificationService.send_push_notification
all catch every exception and return False), so each transport is a pure
bool-valued function of the send arguments. emailSend takes to_email,
subject, html_content, text_content; smsSend takes to_phone, message;
pushSend takes device_tokens, title, body. -/
structure Providers where
  emailSend : String → String → String → String → Bool
  smsSend : String → String → Bool
  pushSend : List String → String → String → Bool

/-- EmailNotificationService.send_template_email (notifications.py lines
194-204): renders subject, email_body and sms_body in that order, then
calls send_email; the surrounding try/except turns any rendering error
(including an unknown template name) into a logged False. -/
def send_template_email (emailSend : String → String → String → String → Bool)
    (to_email template_name : String) (vars : List (String × PyVal)) : Bool :=
  match render_template template_name "subject" vars with
  | Except.error _ => false
  | Except.ok subject =>
    match render_template template_name "email_body" vars with
    | Except.error _ => false
    | Except.ok html_content =>
      match render_template template_name "sms_body" vars with
      | Except.error _ => false
      | Except.ok text_content => emailSend to_email subject html_content text_content

/-- SMSNotificationService.send_template_sms (notifications.py lines
237-244): renders sms_body then calls send_sms; the try/except turns any
rendering error into False. -/
def send_template_sms (smsSend : String → String → Bool)
    (to_phone template_name : String) (vars : List (String × PyVal)) : Bool :=
  match render_template template_name "sms_body" vars with
  | Except.error _ => false
  | Except.ok message => smsSend to_phone message

/-- PushNotificationService.send_template_push (notifications.py lines
295-304): renders push_title and push_body then calls
send_push_notification; the try/except turns any rendering error into
False. -/
def send_template_push (pushSend : List String → String → String → Bool)
    (device_tokens : List String) (template_name : String)
    (vars : List (String × PyVal)) : Bool :=
  match render_template template_name "push_title" vars with
  | Except.error _ => false
  | Except.ok title =>
    match render_template template_name "push_body" vars with
    | Except.error _ => false
    | Except.ok body => pushSend device_tokens title body

/-- The three notification feature flags read from Config. -/
structure Config where
  ENABLE_EMAIL_NOTIFICATIONS : Bool
  ENABLE_SMS_NOTIFICATIONS : Bool
  ENABLE_PUSH_NOTIFICATIONS : Bool

/-- The recipient record handed to send_notification: a Python dict whose
keys name, email, phone, device_tokens, preferences may each be absent.
Preference values are the booleans keyed by channel name. -/
structure User where
  name : Option String
  email : Option String
  phone : Option String
  device_tokens : Option (List String)
  preferences : Option (List (String × Bool))

/-- The preference read user.get(d1, default-dict).get(channel, dflt):
an absent preferences dict and an absent channel key both fall back to
the per-channel default used at the call site. -/
def prefGet (user : User) (channel : String) (dflt : Bool) : Bool :=
  match user.preferences with
  | none => dflt
  | some prefs =>
    match dictGet prefs channel with
    | none => dflt
    | some b => b

/-- Python truthiness of user.get(k) for an optional string field: absent
and the empty string are both falsy. -/
def optStrTruthy : Option String → Bool
  | none => false
  | some s => !s.isEmpty

/-- Python truthiness of user.get(k) for an optional list field: absent
and the empty list are both falsy. -/
def optListTruthy : Option (List String) → Bool
  | none => false
  | some l => !l.isEmpty

/-- Python exceptions that can escape the modelled manager code. -/
inductive PyError where
  | keyError : String → PyError
deriving DecidableEq, Repr

/-- The common_vars dict literal of send_notification (notifications.py
lines 325-329): user_name and user_email first, then the splat of the
caller-supplied map; a later binding for the same key overwrites the
earlier one, so caller-supplied entries win every collision. -/
def common_vars (user : User) (vars : List (String × PyVal)) : List (String × PyVal) :=
  vars.foldl (fun d p => dictSet d p.1 p.2)
    (dictSet (dictSet [] "user_name" (PyVal.str (user.name.getD "Alumni")))
      "user_email" (PyVal.str (user.email.getD "")))

/-- The email block of send_notification (notifications.py lines 332-339).
Both the send path and the opted-out logging path index user with
user['email'], so a missing email key raises KeyError on either path; in
the source the pref-false path assigns results['email'] = False before the
logging line raises, but the exception discards that partial dict, so
checking the key before returning is observationally identical. -/
def email_branch (cfg : Config) (pr : Providers) (user : User) (template_name : String)
    (cv : List (String × PyVal)) (channels : List String)
    (results : List (String × Bool)) : Except PyError (List (String × Bool)) :=
  if "email" ∈ channels ∧ cfg.ENABLE_EMAIL_NOTIFICATIONS then
    if prefGet user "email" true then
      match user.email with
      | none => Except.error (PyError.keyError "email")
      | some addr =>
        Except.ok (dictSet results "email" (send_template_email pr.emailSend addr template_name cv))
    else
      match user.email with
      | none => Except.error (PyError.keyError "email")
      | some _ => Except.ok (dictSet results "email" false)
  else Except.ok results

/-- The sms block of send_notification (notifications.py lines 342-348):
the sms preference defaults to False and the phone must be truthy; the
phone indexing user['phone'] is guarded by that truthiness, so this block
never raises. -/
def sms_branch (cfg : Config) (pr : Providers) (user : User) (template_name : String)
    (cv : List (String × PyVal)) (channels : List String)
    (results : List (String × Bool)) : List (String × Bool) :=
  if "sms" ∈ channels ∧ cfg.ENABLE_SMS_NOTIFICATIONS then
    if prefGet user "sms" false ∧ optStrTruthy user.phone then
      dictSet results "sms" (send_template_sms pr.smsSend (user.phone.getD "") template_name cv)
    else dictSet results "sms" false
  else results

/-- The push block of send_notification (notifications.py lines 351-357):
push preference defaults to True and the device-token list must be
truthy; the indexing user['device_tokens'] is guarded, so this block
never raises. -/
def push_branch (cfg : Config) (pr : Providers) (user : User) (template_name : String)
    (cv : List (String × PyVal)) (channels : List String)
    (results : List (String × Bool)) : List (String × Bool) :=
  if "push" ∈ channels ∧ cfg.ENABLE_PUSH_NOTIFICATIONS then
    if prefGet user "push" true ∧ optListTruthy user.device_tokens then
      dictSet results "push" (send_template_push pr.pushSend (user.device_tokens.getD [])
        template_name cv)
    else dictSet results "push" false
  else results

/-- NotificationManager.send_notification (notifications.py lines 316-359):
defaults channels to ['email'], builds common_vars, then runs the email,
sms and push blocks in order over the results dict. The notification_type
argument is accepted and unused, as in the source. -/
def send_notification (cfg : Config) (pr : Providers) (user : User)
    (notification_type template_name : String) (vars : List (String × PyVal))
    (channels : Option (List String)) : Except PyError (List (String × Bool)) :=
  let chans := channels.getD ["email"]
  let cv := common_vars user vars
  match email_branch cfg pr user template_name cv chans [] with
  | Except.error e => Except.error e
  | Except.ok r1 =>
    Except.ok (push_branch cfg pr user template_name cv chans
      (sms_branch cfg pr user template_name cv chans r1))

/-- The aggregate counters dict of send_bulk_notification (notifications.py
line 367). -/
structure BulkCounts where
  success : Nat
  failed : Nat
  skipped : Nat
deriving DecidableEq, Repr

/-- The loop body of send_bulk_notification (notifications.py lines
369-380): a raised exception is caught and counted as failed; otherwise
the recipient counts as success when any channel value is True and as
failed otherwise. The skipped counter is never incremented. -/
def bulk_step (cfg : Config) (pr : Providers) (template_name : String)
    (vars : List (String × PyVal)) (chans : List String) : BulkCounts → User → BulkCounts :=
  fun acc user =>
    match send_notification cfg pr user "bulk" template_name vars (some chans) with
    | Except.ok user_results =>
      if user_results.any (fun p => p.2) then ⟨acc.success + 1, acc.failed, acc.skipped⟩
      else ⟨acc.success, acc.failed + 1, acc.skipped⟩
    | Except.error _ => ⟨acc.success, acc.failed + 1, acc.skipped⟩

/-- NotificationManager.send_bulk_notification (notifications.py lines
361-382): defaults channels to ['email'] and folds the per-recipient step
over the list, starting from all-zero counters. -/
def send_bulk_notification (cfg : Config) (pr : Providers) (users : List User)
    (template_name : String) (vars : List (String × PyVal))
    (channels : Option (List String)) : BulkCounts :=
  List.foldl (bulk_step cfg pr template_name vars (channels.getD ["email"])) ⟨0, 0, 0⟩ users

/-- A configuration with every notification feature flag enabled. -/
def cfgAll : Config := ⟨true, true, true⟩

/-- Transport oracles that always succeed (the mocked always-succeeding
provider of the spec's idempotence test). -/
def alwaysTrueProviders : Providers :=
  ⟨fun _ _ _ _ => true, fun _ _ => true, fun _ _ _ => true⟩

/-- Transport oracles that always fail (a provider whose transport rejects
every send). -/
def alwaysFalseProviders : Providers :=
  ⟨fun _ _ _ _ => false, fun _ _ => false, fun _ _ _ => false⟩

/-- A fully populated recipient with no explicit preferences. -/
def userFull : User :=
  ⟨some "Alice", some "alice@example.com", some "5551234", some ["token1"], none⟩

/-- A recipient record without an email key. -/
def userNoEmail : User :=
  ⟨some "Bob", none, some "5551234", some ["token1"], none⟩

/-- A recipient who explicitly opted out of email. -/
def userOptOutEmail : User :=
  ⟨some "Carol", some "carol@example.com", none, none, some [("email", false)]⟩

/-- A recipient with a phone number and no preferences dict. -/
def userPhoneNoPrefs : User :=
  ⟨some "Bob", some "bob@example.com", some "5551234", none, none⟩

/-- A recipient without an email key who explicitly opted out of email. -/
def userNoEmailOptOut : User :=
  ⟨some "Dan", none, none, none, some [("email", false)]⟩

/-- The feature flag guarding a channel name in send_notification. -/
def flagOf (cfg : Config) (c : String) : Bool :=
  if c = "email" then cfg.ENABLE_EMAIL_NOTIFICATIONS
  else if c = "sms" then cfg.ENABLE_SMS_NOTIFICATIONS
  else if c = "push" then cfg.ENABLE_PUSH_NOTIFICATIONS
  else false

/-- A configuration with email notifications disabled and the other two
flags enabled. -/
def cfgEmailOff : Config := ⟨false, true, true⟩

/-- A variable map for rsvp_confirmation carrying every referenced key
except guests. -/
def rsvpVarsNoGuests : List (String × PyVal) :=
  [("user_name", PyVal.str "Alice"), ("status", PyVal.str "going"),
   ("event_title", PyVal.str "Alumni Night"), ("start_time", PyVal.str "June 1"),
   ("venue", PyVal.str "Hall"), ("notes", PyVal.str "see you"),
   ("event_link", PyVal.str "http://example.com/e/1")]

theorem dictGet_dictSet_self {α : Type} (d : List (String × α)) (k : String) (v : α) :
    dictGet (dictSet d k v) k = some v := by
  induction d with
  | nil => simp [dictSet, dictGet]
  | cons p rest ih =>
    by_cases h : p.1 = k
    · simp [dictSet, h, dictGet]
    · simp [dictSet, h, dictGet, ih]

theorem dictGet_dictSet_ne {α : Type} (d : List (String × α)) (k j : String) (v : α)
    (h : j ≠ k) : dictGet (dictSet d k v) j = dictGet d j := by
  have hkj : ¬(k = j) := fun hh => h hh.symm
  induction d with
  | nil => simp [dictSet, dictGet, hkj]
  | cons p rest ih =>
    by_cases hp : p.1 = k
    · simp [dictSet, hp, dictGet, hkj]
    · simp only [dictSet, if_neg hp, dictGet]
      by_cases hj : p.1 = j
      · simp [hj]
      · simp [hj, ih]

theorem mem_dictSet {α : Type} (d : List (String × α)) (k : String) (v : α) :
    ∀ p ∈ dictSet d k v, p ∈ d ∨ p = (k, v) := by
  induction d with
  | nil => intro p hp; simp [dictSet] at hp; right; exact hp
  | cons q rest ih =>
    intro p hp
    by_cases h : q.1 = k
    · simp [dictSet, h] at hp
      rcases hp with hp | hp
      · right; exact hp
      · left; exact List.mem_cons_of_mem _ hp
    · simp [dictSet, h] at hp
      rcases hp with hp | hp
      · left; exact hp ▸ List.mem_cons_self _ _
      · rcases ih p hp with h2 | h2
        · left; exact List.mem_cons_of_mem _ h2
        · right; exact h2

theorem renderNodes_ok_of_cmp_free (vars : List (String × PyVal)) :
    ∀ nodes : List TmplNode, hasCmpCond nodes = false →
      ∃ s, renderNodes vars nodes = Except.ok s := by
  intro nodes
  induction nodes with
  | nil => intro _; exact ⟨"", rfl⟩
  | cons n rest ih =>
    intro h
    simp [hasCmpCond, List.any_cons] at h
    obtain ⟨hn, hrest⟩ := h
    obtain ⟨t, ht⟩ := ih (by simpa [hasCmpCond] using hrest)
    cases n with
    | atom a => exact ⟨renderAtom vars a ++ t, by simp [renderNodes, renderNode, ht]⟩
    | condGtZero k body => simp at hn
    | condTruthy k body =>
      cases hv : dictGet vars k with
      | none => exact ⟨"" ++ t, by simp [renderNodes, renderNode, hv, ht]⟩
      | some v =>
        exact ⟨(if pyTruthy v then renderAtoms vars body else "") ++ t,
          by simp [renderNodes, renderNode, hv, ht]⟩

theorem bulk_step_delta (cfg : Config) (pr : Providers) (tn : String)
    (vars : List (String × PyVal)) (chans : List String) (u : User) :
    ∃ d1 d2 : Nat, d1 + d2 = 1 ∧ ∀ a b c : Nat,
      bulk_step cfg pr tn vars chans ⟨a, b, c⟩ u = ⟨a + d1, b + d2, c⟩ := by
  cases hsn : send_notification cfg pr u "bulk" tn vars (some chans) with
  | error e => exact ⟨0, 1, rfl, fun a b c => by simp [bulk_step, hsn]⟩
  | ok ur =>
    by_cases ha : ur.any (fun p => p.2) = true
    · exact ⟨1, 0, rfl, fun a b c => by simp [bulk_step, hsn, ha]⟩
    · exact ⟨0, 1, rfl, fun a b c => by simp [bulk_step, hsn, ha]⟩

theorem bulk_foldl_shift (cfg : Config) (pr : Providers) (tn : String)
    (vars : List (String × PyVal)) (chans : List String) :
    ∀ (users : List User) (s f k : Nat),
      List.foldl (bulk_step cfg pr tn vars chans) ⟨s, f, k⟩ users =
        ⟨s + (List.foldl (bulk_step cfg pr tn vars chans) ⟨0, 0, 0⟩ users).success,
         f + (List.foldl (bulk_step cfg pr tn vars chans) ⟨0, 0, 0⟩ users).failed,
         k + (List.foldl (bulk_step cfg pr tn vars chans) ⟨0, 0, 0⟩ users).skipped⟩ := by
  intro users
  induction users with
  | nil => intro s f k; simp
  | cons u rest ih =>
    intro s f k
    obtain ⟨d1, d2, _, hstep⟩ := bulk_step_delta cfg pr tn vars chans u
    simp only [List.foldl_cons, hstep, Nat.zero_add]
    have h1 := ih (s + d1) (f + d2) k
    have h2 := ih d1 d2 0
    rw [h1, h2]
    simp [BulkCounts.mk.injEq]
    omega

theorem bulk_foldl_counts (cfg : Config) (pr : Providers) (tn : String)
    (vars : List (String × PyVal)) (chans : List String) :
    ∀ users : List User,
      (List.foldl (bulk_step cfg pr tn vars chans) ⟨0, 0, 0⟩ users).skipped = 0 ∧
      (List.foldl (bulk_step cfg pr tn vars chans) ⟨0, 0, 0⟩ users).success +
        (List.foldl (bulk_step cfg pr tn vars chans) ⟨0, 0, 0⟩ users).failed =
        users.length := by
  intro users
  induction users with
  | nil => simp
  | cons u rest ih =>
    obtain ⟨d1, d2, hd, hstep⟩ := bulk_step_delta cfg pr tn vars chans u
    simp only [List.foldl_cons, hstep, Nat.zero_add]
    rw [bulk_foldl_shift cfg pr tn vars chans rest d1 d2 0]
    simp only [List.length_cons]
    obtain ⟨ih1, ih2⟩ := ih
    refine ⟨by simpa using ih1, ?_⟩
    dsimp only
    omega

theorem email_branch_skip (cfg : Config) (pr : Providers) (user : User) (tn : String)
    (cv : List (String × PyVal)) (chans : List String) (results : List (String × Bool))
    (h : ¬("email" ∈ chans ∧ cfg.ENABLE_EMAIL_NOTIFICATIONS = true)) :
    email_branch cfg pr user tn cv chans results = Except.ok results := by
  simp [email_branch, h]

theorem email_branch_ok_cases (cfg : Config) (pr : Providers) (user : User) (tn : String)
    (cv : List (String × PyVal)) (chans : List String) (results : List (String × Bool))
    (r : List (String × Bool))
    (h : email_branch cfg pr user tn cv chans results = Except.ok r) :
    r = results ∨ (∃ b, r = dictSet results "email" b) ∧ "email" ∈ chans := by
  by_cases hc : ("email" ∈ chans ∧ cfg.ENABLE_EMAIL_NOTIFICATIONS = true)
  · right
    refine ⟨?_, hc.1⟩
    by_cases hp : prefGet user "email" true = true
    · cases he : user.email with
      | none => simp [email_branch, hc, hp, he] at h
      | some a =>
        exact ⟨send_template_email pr.emailSend a tn cv,
          by simp [email_branch, hc, hp, he] at h; exact h.symm⟩
    · cases he : user.email with
      | none => simp [email_branch, hc, hp, he] at h
      | some a =>
        exact ⟨false, by simp [email_branch, hc, hp, he] at h; exact h.symm⟩
  · left
    simp [email_branch, hc] at h
    exact h.symm

theorem email_branch_no_raise (cfg : Config) (pr : Providers) (user : User) (tn : String)
    (cv : List (String × PyVal)) (chans : List String) (results : List (String × Bool))
    (he : user.email ≠ none) :
    ∃ r, email_branch cfg pr user tn cv chans results = Except.ok r := by
  cases hem : user.email with
  | none => exact absurd hem he
  | some a =>
    by_cases hc : ("email" ∈ chans ∧ cfg.ENABLE_EMAIL_NOTIFICATIONS = true)
    · by_cases hp : prefGet user "email" true = true
      · exact ⟨dictSet results "email" (send_template_email pr.emailSend a tn cv),
          by simp [email_branch, hc, hp, hem]⟩
      · exact ⟨dictSet results "email" false, by simp [email_branch, hc, hp, hem]⟩
    · exact ⟨results, by simp [email_branch, hc]⟩

theorem sms_branch_cases (cfg : Config) (pr : Providers) (user : User) (tn : String)
    (cv : List (String × PyVal)) (chans : List String) (results : List (String × Bool)) :
    sms_branch cfg pr user tn cv chans results = results ∨
      (∃ b, sms_branch cfg pr user tn cv chans results = dictSet results "sms" b) ∧
        "sms" ∈ chans := by
  by_cases hc : ("sms" ∈ chans ∧ cfg.ENABLE_SMS_NOTIFICATIONS = true)
  · right
    refine ⟨?_, hc.1⟩
    by_cases hp : (prefGet user "sms" false = true ∧ optStrTruthy user.phone = true)
    · exact ⟨send_template_sms pr.smsSend (user.phone.getD "") tn cv,
        by simp [sms_branch, hc, hp]⟩
    · exact ⟨false, by simp [sms_branch, hc, hp]⟩
  · left; simp [sms_branch, hc]

theorem push_branch_cases (cfg : Config) (pr : Providers) (user : User) (tn : String)
    (cv : List (String × PyVal)) (chans : List String) (results : List (String × Bool)) :
    push_branch cfg pr user tn cv chans results = results ∨
      (∃ b, push_branch cfg pr user tn cv chans results = dictSet results "push" b) ∧
        "push" ∈ chans := by
  by_cases hc : ("push" ∈ chans ∧ cfg.ENABLE_PUSH_NOTIFICATIONS = true)
  · right
    refine ⟨?_, hc.1⟩
    by_cases hp : (prefGet user "push" true = true ∧ optListTruthy user.device_tokens = true)
    · exact ⟨send_template_push pr.pushSend (user.device_tokens.getD []) tn cv,
        by simp [push_branch, hc, hp]⟩
    · exact ⟨false, by simp [push_branch, hc, hp]⟩
  · left; simp [push_branch, hc]

theorem sms_branch_skip (cfg : Config) (pr : Providers) (user : User) (tn : String)
    (cv : List (String × PyVal)) (chans : List String) (results : List (String × Bool))
    (h : ¬("sms" ∈ chans ∧ cfg.ENABLE_SMS_NOTIFICATIONS = true)) :
    sms_branch cfg pr user tn cv chans results = results := by
  simp [sms_branch, h]

theorem push_branch_skip (cfg : Config) (pr : Providers) (user : User) (tn : String)
    (cv : List (String × PyVal)) (chans : List String) (results : List (String × Bool))
    (h : ¬("push" ∈ chans ∧ cfg.ENABLE_PUSH_NOTIFICATIONS = true)) :
    push_branch cfg pr user tn cv chans results = results := by
  simp [push_branch, h]

theorem render_template_unknown (tn slot : String) (vars : List (String × PyVal))
    (h : dictGet templates tn = none) :
    render_template tn slot vars = Except.error ("Template " ++ tn ++ " not found") := by
  simp [render_template, h]

theorem send_template_email_unknown (f : String → String → String → String → Bool)
    (a tn : String) (vars : List (String × PyVal)) (h : dictGet templates tn = none) :
    send_template_email f a tn vars = false := by
  simp [send_template_email, render_template_unknown tn _ vars h]

theorem send_template_sms_unknown (f : String → String → Bool)
    (a tn : String) (vars : List (String × PyVal)) (h : dictGet templates tn = none) :
    send_template_sms f a tn vars = false := by
  simp [send_template_sms, render_template_unknown tn _ vars h]

theorem send_template_push_unknown (f : List String → String → String → Bool)
    (ts : List String) (tn : String) (vars : List (String × PyVal))
    (h : dictGet templates tn = none) :
    send_template_push f ts tn vars = false := by
  simp [send_template_push, render_template_unknown tn _ vars h]

theorem renderAtom_set_empty (vars : List (String × PyVal)) (k : String)
    (hk : dictGet vars k = none) (a : TmplAtom) :
    renderAtom (dictSet vars k (PyVal.str "")) a = renderAtom vars a := by
  cases a with
  | lit s => rfl
  | var j =>
    by_cases hj : j = k
    · subst hj
      simp [renderAtom, dictGet_dictSet_self, hk, pyStr]
    · simp [renderAtom, dictGet_dictSet_ne vars k j _ hj]

theorem renderAtoms_set_empty (vars : List (String × PyVal)) (k : String)
    (hk : dictGet vars k = none) :
    ∀ l : List TmplAtom,
      renderAtoms (dictSet vars k (PyVal.str "")) l = renderAtoms vars l := by
  intro l
  induction l with
  | nil => rfl
  | cons a rest ih => simp [renderAtoms, renderAtom_set_empty vars k hk a, ih]

theorem renderNodes_set_empty (vars : List (String × PyVal)) (k : String)
    (hk : dictGet vars k = none) :
    ∀ nodes : List TmplNode, hasCmpCond nodes = false →
      renderNodes (dictSet vars k (PyVal.str "")) nodes = renderNodes vars nodes := by
  intro nodes
  induction nodes with
  | nil => intro _; rfl
  | cons n rest ih =>
    intro h
    simp [hasCmpCond, List.any_cons] at h
    obtain ⟨hn, hrest⟩ := h
    have ihr := ih (by simpa [hasCmpCond] using hrest)
    cases n with
    | atom a =>
      simp [renderNodes, renderNode, renderAtom_set_empty vars k hk a, ihr]
    | condGtZero j body => simp at hn
    | condTruthy j body =>
      by_cases hj : j = k
      · subst hj
        simp [renderNodes, renderNode, dictGet_dictSet_self, hk, pyTruthy, ihr,
          (show ("" : String).isEmpty = true from rfl)]
      · simp [renderNodes, renderNode, dictGet_dictSet_ne vars k j _ hj,
          renderAtoms_set_empty vars k hk, ihr]

theorem foldl_dictSet_preserve (k : String) :
    ∀ (l : List (String × PyVal)) (d : List (String × PyVal)),
      (∀ p ∈ l, p.1 ≠ k) →
      dictGet (List.foldl (fun d p => dictSet d p.1 p.2) d l) k = dictGet d k := by
  intro l
  induction l with
  | nil => intro d _; rfl
  | cons p rest ih =>
    intro d h
    simp only [List.foldl_cons]
    rw [ih (dictSet d p.1 p.2) (fun q hq => h q (List.mem_cons_of_mem _ hq))]
    exact dictGet_dictSet_ne d p.1 k p.2 (fun hh => h p (List.mem_cons_self _ _) hh.symm)

theorem foldl_dictSet_get (k : String) (v : PyVal) :
    ∀ (l : List (String × PyVal)) (d : List (String × PyVal)),
      dictGet l k = some v → (l.map Prod.fst).Nodup →
      dictGet (List.foldl (fun d p => dictSet d p.1 p.2) d l) k = some v := by
  intro l
  induction l with
  | nil => intro d h _; simp [dictGet] at h
  | cons p rest ih =>
    intro d h hnd
    simp only [List.map_cons, List.nodup_cons] at hnd
    obtain ⟨hnm, hnd⟩ := hnd
    simp only [List.foldl_cons]
    by_cases hp : p.1 = k
    · have hv : p.2 = v := by simpa [dictGet, hp] using h
      subst hv
      rw [foldl_dictSet_preserve k rest (dictSet d p.1 p.2) ?hne]
      · rw [hp]; exact dictGet_dictSet_self d k p.2
      · intro q hq hqk
        exact hnm (hp ▸ hqk ▸ List.mem_map_of_mem Prod.fst hq)
    · have hr : dictGet rest k = some v := by simpa [dictGet, hp] using h
      exact ih (dictSet d p.1 p.2) hr hnd

theorem email_branch_false_vals (cfg : Config) (pr : Providers) (user : User) (tn : String)
    (cv : List (String × PyVal)) (chans : List String) (results r : List (String × Bool))
    (hunk : dictGet templates tn = none)
    (hin : ∀ p ∈ results, p.2 = false)
    (h : email_branch cfg pr user tn cv chans results = Except.ok r) :
    ∀ p ∈ r, p.2 = false := by
  intro p hp
  by_cases hc : ("email" ∈ chans ∧ cfg.ENABLE_EMAIL_NOTIFICATIONS = true)
  · by_cases hpr : prefGet user "email" true = true
    · cases he : user.email with
      | none => simp [email_branch, hc, hpr, he] at h
      | some a =>
        simp [email_branch, hc, hpr, he] at h
        rw [← h] at hp
        rcases mem_dictSet results "email" _ p hp with h2 | h2
        · exact hin p h2
        · rw [h2]
          exact send_template_email_unknown pr.emailSend a tn cv hunk
    · cases he : user.email with
      | none => simp [email_branch, hc, hpr, he] at h
      | some a =>
        simp [email_branch, hc, hpr, he] at h
        rw [← h] at hp
        rcases mem_dictSet results "email" _ p hp with h2 | h2
        · exact hin p h2
        · rw [h2]
  · simp [email_branch, hc] at h
    rw [← h] at hp
    exact hin p hp

theorem sms_branch_false_vals (cfg : Config) (pr : Providers) (user : User) (tn : String)
    (cv : List (String × PyVal)) (chans : List String) (results : List (String × Bool))
    (hunk : dictGet templates tn = none)
    (hin : ∀ p ∈ results, p.2 = false) :
    ∀ p ∈ sms_branch cfg pr user tn cv chans results, p.2 = false := by
  intro p hp
  by_cases hc : ("sms" ∈ chans ∧ cfg.ENABLE_SMS_NOTIFICATIONS = true)
  · by_cases hpr : (prefGet user "sms" false = true ∧ optStrTruthy user.phone = true)
    · simp only [sms_branch, if_pos hc, if_pos hpr] at hp
      rcases mem_dictSet results "sms" _ p hp with h2 | h2
      · exact hin p h2
      · rw [h2]
        exact send_template_sms_unknown pr.smsSend _ tn cv hunk
    · simp only [sms_branch, if_pos hc, if_neg hpr] at hp
      rcases mem_dictSet results "sms" _ p hp with h2 | h2
      · exact hin p h2
      · rw [h2]
  · simp only [sms_branch, if_neg hc] at hp
    exact hin p hp

theorem push_branch_false_vals (cfg : Config) (pr : Providers) (user : User) (tn : String)
    (cv : List (String × PyVal)) (chans : List String) (results : List (String × Bool))
    (hunk : dictGet templates tn = none)
    (hin : ∀ p ∈ results, p.2 = false) :
    ∀ p ∈ push_branch cfg pr user tn cv chans results, p.2 = false := by
  intro p hp
  by_cases hc : ("push" ∈ chans ∧ cfg.ENABLE_PUSH_NOTIFICATIONS = true)
  · by_cases hpr : (prefGet user "push" true = true ∧ optListTruthy user.device_tokens = true)
    · simp only [push_branch, if_pos hc, if_pos hpr] at hp
      rcases mem_dictSet results "push" _ p hp with h2 | h2
      · exact hin p h2
      · rw [h2]
        exact send_template_push_unknown pr.pushSend _ tn cv hunk
    · simp only [push_branch, if_pos hc, if_neg hpr] at hp
      rcases mem_dictSet results "push" _ p hp with h2 | h2
      · exact hin p h2
      · rw [h2]
  · simp only [push_branch, if_neg hc] at hp
    exact hin p hp

theorem email_branch_get_ne (cfg : Config) (pr : Providers) (user : User) (tn : String)
    (cv : List (String × PyVal)) (chans : List String) (results r : List (String × Bool))
    (c : String) (hc : c ≠ "email")
    (h : email_branch cfg pr user tn cv chans results = Except.ok r) :
    dictGet r c = dictGet results c := by
  rcases email_branch_ok_cases cfg pr user tn cv chans results r h with h2 | ⟨⟨b, h2⟩, _⟩
  · rw [h2]
  · rw [h2]
    exact dictGet_dictSet_ne results "email" c b hc

theorem sms_branch_get_ne (cfg : Config) (pr : Providers) (user : User) (tn : String)
    (cv : List (String × PyVal)) (chans : List String) (results : List (String × Bool))
    (c : String) (hc : c ≠ "sms") :
    dictGet (sms_branch cfg pr user tn cv chans results) c = dictGet results c := by
  rcases sms_branch_cases cfg pr user tn cv chans results with h | ⟨⟨b, h⟩, _⟩
  · rw [h]
  · rw [h]
    exact dictGet_dictSet_ne results "sms" c b hc

theorem push_branch_get_ne (cfg : Config) (pr : Providers) (user : User) (tn : String)
    (cv : List (String × PyVal)) (chans : List String) (results : List (String × Bool))
    (c : String) (hc : c ≠ "push") :
    dictGet (push_branch cfg pr user tn cv chans results) c = dictGet results c := by
  rcases push_branch_cases cfg pr user tn cv chans results with h | ⟨⟨b, h⟩, _⟩
  · rw [h]
  · rw [h]
    exact dictGet_dictSet_ne results "push" c b hc

theorem email_branch_mem (cfg : Config) (pr : Providers) (user : User) (tn : String)
    (cv : List (String × PyVal)) (chans : List String) (results r : List (String × Bool))
    (p : String × Bool) (h : email_branch cfg pr user tn cv chans results = Except.ok r)
    (hp : p ∈ r) : p ∈ results ∨ (p.1 = "email" ∧ "email" ∈ chans) := by
  rcases email_branch_ok_cases cfg pr user tn cv chans results r h with h2 | ⟨⟨b, h2⟩, hm⟩
  · left; rw [h2] at hp; exact hp
  · rw [h2] at hp
    rcases mem_dictSet results "email" b p hp with h3 | h3
    · left; exact h3
    · right; exact ⟨by rw [h3], hm⟩

theorem sms_branch_mem (cfg : Config) (pr : Providers) (user : User) (tn : String)
    (cv : List (String × PyVal)) (chans : List String) (results : List (String × Bool))
    (p : String × Bool) (hp : p ∈ sms_branch cfg pr user tn cv chans results) :
    p ∈ results ∨ (p.1 = "sms" ∧ "sms" ∈ chans) := by
  rcases sms_branch_cases cfg pr user tn cv chans results with h | ⟨⟨b, h⟩, hm⟩
  · left; rw [h] at hp; exact hp
  · rw [h] at hp
    rcases mem_dictSet results "sms" b p hp with h3 | h3
    · left; exact h3
    · right; exact ⟨by rw [h3], hm⟩

theorem push_branch_mem (cfg : Config) (pr : Providers) (user : User) (tn : String)
    (cv : List (String × PyVal)) (chans : List String) (results : List (String × Bool))
    (p : String × Bool) (hp : p ∈ push_branch cfg pr user tn cv chans results) :
    p ∈ results ∨ (p.1 = "push" ∧ "push" ∈ chans) := by
  rcases push_branch_cases cfg pr user tn cv chans results with h | ⟨⟨b, h⟩, hm⟩
  · left; rw [h] at hp; exact hp
  · rw [h] at hp
    rcases mem_dictSet results "push" b p hp with h3 | h3
    · left; exact h3
    · right; exact ⟨by rw [h3], hm⟩

theorem render_template_ok_of_cmp_free (tn slot : String)
    (slots : List (String × List TmplNode)) (nodes : List TmplNode)
    (vars : List (String × PyVal))
    (h1 : dictGet templates tn = some slots) (h2 : dictGet slots slot = some nodes)
    (h3 : hasCmpCond nodes = false) :
    ∃ s, render_template tn slot vars = Except.ok s := by
  obtain ⟨s, hs⟩ := renderNodes_ok_of_cmp_free vars nodes h3
  exact ⟨s, by simp [render_template, h1, h2, hs]⟩

theorem event_created_email_true (a : String) (cv : List (String × PyVal)) :
    send_template_email (fun _ _ _ _ => true) a "event_created" cv = true := by
  obtain ⟨s1, h1⟩ :=
    render_template_ok_of_cmp_free "event_created" "subject" event_created_tmpl _ cv rfl rfl rfl
  obtain ⟨s2, h2⟩ :=
    render_template_ok_of_cmp_free "event_created" "email_body" event_created_tmpl _ cv rfl rfl rfl
  obtain ⟨s3, h3⟩ :=
    render_template_ok_of_cmp_free "event_created" "sms_body" event_created_tmpl _ cv rfl rfl rfl
  simp [send_template_email, h1, h2, h3]

theorem event_created_push_true (ts : List String) (cv : List (String × PyVal)) :
    send_template_push (fun _ _ _ => true) ts "event_created" cv = true := by
  obtain ⟨s1, h1⟩ :=
    render_template_ok_of_cmp_free "event_created" "push_title" event_created_tmpl _ cv rfl rfl rfl
  obtain ⟨s2, h2⟩ :=
    render_template_ok_of_cmp_free "event_created" "push_body" event_created_tmpl _ cv rfl rfl rfl
  simp [send_template_push, h1, h2]

/-- C1 counterexample: in the common_vars dict literal the splat of the
caller-supplied map comes last, so a caller-supplied user_name overwrites
the recipient-derived one. For the recipient named Alice and the
caller-supplied binding user_name to Mallory, the merged map carries
Mallory, not the recipient-derived Alice the claim requires. -/
theorem C1_counterexample :
    dictGet (common_vars userFull [("user_name", PyVal.str "Mallory")]) "user_name" =
      some (PyVal.str "Mallory") ∧
    dictGet (common_vars userFull [("user_name", PyVal.str "Mallory")]) "user_name" ≠
      some (PyVal.str "Alice") :=
  ⟨rfl, by decide⟩

/-- C1 amended: the variable map passed to rendering is the caller-supplied
map merged over the recipient-derived common variables user_name and
user_email, and the caller-supplied value takes precedence for every key,
including the two reserved common variables (the splat comes last in the
dict literal of notifications.py lines 325-329). -/
theorem C1_caller_keys_win (user : User) (vars : List (String × PyVal)) (k : String)
    (v : PyVal) (hnd : (vars.map Prod.fst).Nodup) (hv : dictGet vars k = some v) :
    dictGet (common_vars user vars) k = some v := by
  unfold common_vars
  exact foldl_dictSet_get k v vars _ hv hnd

/-- C1 witness: the amended merge theorem applied at the Mallory input. -/
theorem C1_caller_keys_win_witness :
    (([("user_name", PyVal.str "Mallory")].map Prod.fst).Nodup ∧
      dictGet [("user_name", PyVal.str "Mallory")] "user_name" = some (PyVal.str "Mallory")) ∧
    dictGet (common_vars userFull [("user_name", PyVal.str "Mallory")]) "user_name" =
      some (PyVal.str "Mallory") :=
  ⟨⟨by simp, rfl⟩,
    C1_caller_keys_win userFull [("user_name", PyVal.str "Mallory")] "user_name"
      (PyVal.str "Mallory") (by simp) rfl⟩

/-- C2 counterexample: with providers that always succeed, an unknown
template name does not raise and does not surface an explicit error: the
ValueError from render_template is swallowed inside send_template_email
and send_notification returns the ordinary result map with email mapped
to False, byte-identical to the map produced by a provider-level
transport failure on a known template. -/
theorem C2_counterexample :
    send_notification cfgAll alwaysTrueProviders userFull "t" "no_such_template" []
      (some ["email"]) = Except.ok [("email", false)] ∧
    send_notification cfgAll alwaysFalseProviders userFull "t" "event_created" []
      (some ["email"]) = Except.ok [("email", false)] :=
  ⟨rfl, rfl⟩

/-- C2 amended: an unknown template name never raises through
send_notification and is not reported as an explicit error; for any
recipient carrying an email key, the call returns an ordinary result map
in which every requested channel is False, indistinguishable from a
transport failure (the render error is caught by the try/except of each
provider's send_template method). Transport failures likewise never
raise, since every transport outcome is already a plain bool. -/
theorem C2_template_error_swallowed (cfg : Config) (pr : Providers) (user : User)
    (nt tn : String) (vars : List (String × PyVal)) (chs : Option (List String))
    (hunk : dictGet templates tn = none) (he : user.email ≠ none) :
    ∃ r, send_notification cfg pr user nt tn vars chs = Except.ok r ∧
      ∀ p ∈ r, p.2 = false := by
  obtain ⟨r1, h1⟩ := email_branch_no_raise cfg pr user tn (common_vars user vars)
    (chs.getD ["email"]) [] he
  refine ⟨push_branch cfg pr user tn (common_vars user vars) (chs.getD ["email"])
    (sms_branch cfg pr user tn (common_vars user vars) (chs.getD ["email"]) r1), ?_, ?_⟩
  · simp [send_notification, h1]
  · exact push_branch_false_vals cfg pr user tn _ _ _ hunk
      (sms_branch_false_vals cfg pr user tn _ _ _ hunk
        (email_branch_false_vals cfg pr user tn _ _ _ r1 hunk (by simp) h1))

/-- C2 witness: the amended theorem applied to a fully populated recipient
and the unknown template name no_such_template. -/
theorem C2_template_error_swallowed_witness :
    (dictGet templates "no_such_template" = none ∧ userFull.email ≠ none) ∧
    (∃ r, send_notification cfgAll alwaysTrueProviders userFull "t" "no_such_template" []
      (some ["email"]) = Except.ok r ∧ ∀ p ∈ r, p.2 = false) :=
  ⟨⟨rfl, by simp [userFull]⟩,
    C2_template_error_swallowed cfgAll alwaysTrueProviders userFull "t" "no_such_template"
      [] (some ["email"]) rfl (by simp [userFull])⟩

/-- C3 counterexample: a recipient who explicitly opted out of email, with
channels limited to email, has every requested channel skipped, yet
send_bulk_notification counts that recipient under failed and leaves
skipped at zero; the claim requires skipped = 1 and failed = 0 here. -/
theorem C3_counterexample :
    send_notification cfgAll alwaysTrueProviders userOptOutEmail "bulk" "event_created" []
      (some ["email"]) = Except.ok [("email", false)] ∧
    send_bulk_notification cfgAll alwaysTrueProviders [userOptOutEmail] "event_created" []
      (some ["email"]) = ⟨0, 1, 0⟩ :=
  ⟨rfl, rfl⟩

/-- C3 amended: the skipped counter of send_bulk_notification is never
incremented (a recipient for whom every channel was skipped counts as
failed), and the counts still satisfy success plus failed plus skipped
equal to the number of recipients. -/
theorem C3_skipped_always_zero (cfg : Config) (pr : Providers) (users : List User)
    (tn : String) (vars : List (String × PyVal)) (chs : Option (List String)) :
    (send_bulk_notification cfg pr users tn vars chs).skipped = 0 ∧
    (send_bulk_notification cfg pr users tn vars chs).success +
      (send_bulk_notification cfg pr users tn vars chs).failed +
      (send_bulk_notification cfg pr users tn vars chs).skipped = users.length := by
  obtain ⟨h1, h2⟩ := bulk_foldl_counts cfg pr tn vars (chs.getD ["email"]) users
  unfold send_bulk_notification
  refine ⟨h1, ?_⟩
  rw [h1]
  omega

/-- C4 counterexample: a recipient with a phone number and no preference
map at all, against providers that always succeed: the sms channel is
requested, enabled and addressable, yet its result is False, because the
sms preference read defaults to False (opt-out) rather than True — the
channel is never attempted. -/
theorem C4_counterexample :
    send_notification cfgAll alwaysTrueProviders userPhoneNoPrefs "t" "event_created" []
      (some ["sms"]) = Except.ok [("sms", false)] :=
  rfl

/-- C4 amended: a recipient whose preference map is absent is treated as
opted in for email and push but opted out for sms: with all flags on,
address data present and always-succeeding providers, the email and push
entries are True (channel attempted) while the sms entry is False
(channel skipped), because the sms preference read uses default False at
notifications.py line 343 where email and push use default True. -/
theorem C4_sms_defaults_opt_out (user : User) (nt : String)
    (vars : List (String × PyVal)) (em : String)
    (hpref : user.preferences = none) (he : user.email = some em)
    (hph : optStrTruthy user.phone = true) (ht : optListTruthy user.device_tokens = true) :
    send_notification cfgAll alwaysTrueProviders user nt "event_created" vars
      (some ["email", "sms", "push"]) =
      Except.ok [("email", true), ("sms", false), ("push", true)] := by
  have hce : (("email" : String) ∈ ["email", "sms", "push"] ∧
      cfgAll.ENABLE_EMAIL_NOTIFICATIONS = true) := by
    refine ⟨by simp, rfl⟩
  have hcs : (("sms" : String) ∈ ["email", "sms", "push"] ∧
      cfgAll.ENABLE_SMS_NOTIFICATIONS = true) := by
    refine ⟨by simp, rfl⟩
  have hcp : (("push" : String) ∈ ["email", "sms", "push"] ∧
      cfgAll.ENABLE_PUSH_NOTIFICATIONS = true) := by
    refine ⟨by simp, rfl⟩
  have hpe : prefGet user "email" true = true := by simp [prefGet, hpref]
  have hps : prefGet user "sms" false = false := by simp [prefGet, hpref]
  have hpp : prefGet user "push" true = true := by simp [prefGet, hpref]
  simp only [send_notification, email_branch, sms_branch, push_branch,
    if_pos hce, if_pos hcs, if_pos hcp, hpe, hps, hpp, he, if_pos rfl,
    event_created_email_true, event_created_push_true]
  simp [event_created_email_true, event_created_push_true, ht, dictSet,
    alwaysTrueProviders, cfgAll]

/-- C4 witness: the amended theorem applied to the fully populated
recipient with no preference map. -/
theorem C4_sms_defaults_opt_out_witness :
    (userFull.preferences = none ∧ userFull.email = some "alice@example.com" ∧
      optStrTruthy userFull.phone = true ∧ optListTruthy userFull.device_tokens = true) ∧
    send_notification cfgAll alwaysTrueProviders userFull "t" "event_created" []
      (some ["email", "sms", "push"]) =
      Except.ok [("email", true), ("sms", false), ("push", true)] :=
  ⟨⟨rfl, rfl, rfl, rfl⟩,
    C4_sms_defaults_opt_out userFull "t" [] "alice@example.com" rfl rfl rfl rfl⟩

/-- C5 counterexample: with the email feature flag off, requesting the
email channel yields an empty result map — no entry for email at all —
where the claim requires an entry with success False and reason
feature-disabled. -/
theorem C5_counterexample :
    send_notification cfgEmailOff alwaysTrueProviders userFull "t" "event_created" []
      (some ["email"]) = Except.ok [] :=
  rfl

/-- C5 amended: a requested channel whose feature flag is off is silently
omitted from the result map of send_notification (the whole channel block
is guarded by the flag conjunct, so no entry is recorded), rather than
recorded as a failed Send Result. -/
theorem C5_flag_off_silently_omitted (cfg : Config) (pr : Providers) (user : User)
    (nt tn : String) (vars : List (String × PyVal)) (chs : Option (List String))
    (c : String) (r : List (String × Bool))
    (hc : c = "email" ∨ c = "sms" ∨ c = "push") (hf : flagOf cfg c = false)
    (h : send_notification cfg pr user nt tn vars chs = Except.ok r) :
    dictGet r c = none := by
  cases hem : email_branch cfg pr user tn (common_vars user vars) (chs.getD ["email"]) [] with
  | error e => simp [send_notification, hem] at h
  | ok r1 =>
    have hr : r = push_branch cfg pr user tn (common_vars user vars) (chs.getD ["email"])
        (sms_branch cfg pr user tn (common_vars user vars) (chs.getD ["email"]) r1) := by
      simp [send_notification, hem] at h
      exact h.symm
    subst hr
    rcases hc with hc | hc | hc
    · subst hc
      have hfe : cfg.ENABLE_EMAIL_NOTIFICATIONS = false := by simpa [flagOf] using hf
      have hskip := email_branch_skip cfg pr user tn (common_vars user vars)
        (chs.getD ["email"]) [] (by simp [hfe])
      rw [hskip] at hem
      have hr1 : r1 = [] := by
        have h2 := hem
        simp at h2
        exact h2
      rw [push_branch_get_ne cfg pr user tn _ _ _ "email" (by decide)]
      rw [sms_branch_get_ne cfg pr user tn _ _ _ "email" (by decide)]
      rw [hr1]
      rfl
    · subst hc
      have hfs : cfg.ENABLE_SMS_NOTIFICATIONS = false := by simpa [flagOf] using hf
      rw [push_branch_get_ne cfg pr user tn _ _ _ "sms" (by decide)]
      rw [sms_branch_skip cfg pr user tn _ _ _ (by simp [hfs])]
      rw [email_branch_get_ne cfg pr user tn _ _ _ r1 "sms" (by decide) hem]
      rfl
    · subst hc
      have hfp : cfg.ENABLE_PUSH_NOTIFICATIONS = false := by simpa [flagOf] using hf
      rw [push_branch_skip cfg pr user tn _ _ _ (by simp [hfp])]
      rw [sms_branch_get_ne cfg pr user tn _ _ _ "push" (by decide)]
      rw [email_branch_get_ne cfg pr user tn _ _ _ r1 "push" (by decide) hem]
      rfl

/-- C5 witness: the amended theorem applied with the email flag off. -/
theorem C5_flag_off_silently_omitted_witness :
    (("email" : String) = "email" ∧ flagOf cfgEmailOff "email" = false ∧
      send_notification cfgEmailOff alwaysTrueProviders userFull "t" "event_created" []
        (some ["email"]) = Except.ok []) ∧
    dictGet ([] : List (String × Bool)) "email" = none :=
  ⟨⟨rfl, rfl, rfl⟩,
    C5_flag_off_silently_omitted cfgEmailOff alwaysTrueProviders userFull "t"
      "event_created" [] (some ["email"]) "email" [] (Or.inl rfl) rfl rfl⟩

/-- C6 confirmed: a recipient whose processing raises is caught by
the per-recipient try/except of send_bulk_notification, counted as
failed, and the loop continues: the counts over the remaining recipients
are exactly those of the list without the raising recipient, plus one
failed. -/
theorem C6_recipient_error_counted_failed (cfg : Config) (pr : Providers) (tn : String)
    (vars : List (String × PyVal)) (chs : Option (List String)) (u : User)
    (users : List User) (e : PyError)
    (h : send_notification cfg pr u "bulk" tn vars (some (chs.getD ["email"])) =
      Except.error e) :
    send_bulk_notification cfg pr (u :: users) tn vars chs =
      ⟨(send_bulk_notification cfg pr users tn vars chs).success,
       (send_bulk_notification cfg pr users tn vars chs).failed + 1,
       (send_bulk_notification cfg pr users tn vars chs).skipped⟩ := by
  unfold send_bulk_notification
  simp only [List.foldl_cons]
  rw [show bulk_step cfg pr tn vars (chs.getD ["email"]) ⟨0, 0, 0⟩ u = ⟨0, 1, 0⟩ from by
    simp [bulk_step, h]]
  rw [bulk_foldl_shift cfg pr tn vars (chs.getD ["email"]) users 0 1 0]
  simp only [BulkCounts.mk.injEq]
  omega

/-- C6 witness: a recipient record without an email key raises KeyError
inside send_notification; in a bulk call it is counted as failed. -/
theorem C6_recipient_error_counted_failed_witness :
    (send_notification cfgAll alwaysTrueProviders userNoEmail "bulk" "event_created" []
      (some ((none : Option (List String)).getD ["email"])) =
        Except.error (PyError.keyError "email")) ∧
    send_bulk_notification cfgAll alwaysTrueProviders [userNoEmail] "event_created" [] none =
      ⟨(send_bulk_notification cfgAll alwaysTrueProviders [] "event_created" [] none).success,
       (send_bulk_notification cfgAll alwaysTrueProviders [] "event_created" [] none).failed + 1,
       (send_bulk_notification cfgAll alwaysTrueProviders [] "event_created" [] none).skipped⟩ :=
  ⟨rfl,
    C6_recipient_error_counted_failed cfgAll alwaysTrueProviders "event_created" [] none
      userNoEmail [] (PyError.keyError "email") rfl⟩

/-- C7 confirmed: every key of the result map returned by
send_notification names a channel that is a member of the channels
argument; each channel block only writes its own key and only when that
key is in the requested list. -/
theorem C7_result_keys_in_channels (cfg : Config) (pr : Providers) (user : User)
    (nt tn : String) (vars : List (String × PyVal)) (cs : List String)
    (r : List (String × Bool)) (p : String × Bool)
    (h : send_notification cfg pr user nt tn vars (some cs) = Except.ok r) (hp : p ∈ r) :
    p.1 ∈ cs := by
  cases hem : email_branch cfg pr user tn (common_vars user vars) cs [] with
  | error e => simp [send_notification, hem] at h
  | ok r1 =>
    have hr : r = push_branch cfg pr user tn (common_vars user vars) cs
        (sms_branch cfg pr user tn (common_vars user vars) cs r1) := by
      simp [send_notification, hem] at h
      exact h.symm
    subst hr
    rcases push_branch_mem cfg pr user tn _ _ _ p hp with h2 | ⟨hpk, hm⟩
    · rcases sms_branch_mem cfg pr user tn _ _ _ p h2 with h3 | ⟨hpk, hm⟩
      · rcases email_branch_mem cfg pr user tn _ _ _ r1 p hem h3 with h4 | ⟨hpk, hm⟩
        · simp at h4
        · rw [hpk]; exact hm
      · rw [hpk]; exact hm
    · rw [hpk]; exact hm

/-- C7 witness: the key-membership theorem applied at a concrete call
whose result map is email mapped to True. -/
theorem C7_result_keys_in_channels_witness :
    (send_notification cfgAll alwaysTrueProviders userFull "t" "event_created" []
      (some ["email"]) = Except.ok [("email", true)] ∧
      (("email", true) : String × Bool) ∈ [(("email", true) : String × Bool)]) ∧
    (("email", true) : String × Bool).1 ∈ ["email"] :=
  ⟨⟨rfl, by simp⟩,
    C7_result_keys_in_channels cfgAll alwaysTrueProviders userFull "t" "event_created" []
      ["email"] [("email", true)] ("email", true) rfl (by simp)⟩

/-- C8 counterexample: for the known pair rsvp_confirmation and
email_body, a variable map missing the referenced key guests makes
render_template raise rather than render the reference as empty: the
template compares guests against 0, and the Jinja2 default Undefined
raises UndefinedError on any ordering comparison (only bare printing,
iteration and boolean tests are lenient). -/
theorem C8_counterexample :
    render_template "rsvp_confirmation" "email_body" rsvpVarsNoGuests =
      Except.error "UndefinedError: guests is undefined" :=
  rfl

/-- C8 amended: for every known pair of template name and slot whose node
list is free of integer-comparison conditionals (every pair except
rsvp_confirmation with email_body), rendering with a map missing any key
never raises, and the missing reference behaves exactly as the empty
string: adding the key with an empty-string value leaves the rendered
output unchanged. -/
theorem C8_missing_key_renders_empty (tn slot : String)
    (slots : List (String × List TmplNode)) (nodes : List TmplNode)
    (vars : List (String × PyVal)) (k : String)
    (h1 : dictGet templates tn = some slots) (h2 : dictGet slots slot = some nodes)
    (h3 : hasCmpCond nodes = false) (hk : dictGet vars k = none) :
    (∃ s, render_template tn slot vars = Except.ok s) ∧
      render_template tn slot (dictSet vars k (PyVal.str "")) =
        render_template tn slot vars := by
  refine ⟨render_template_ok_of_cmp_free tn slot slots nodes vars h1 h2 h3, ?_⟩
  simp [render_template, h1, h2, renderNodes_set_empty vars k hk nodes h3]

/-- C8 witness: the amended theorem applied to the sms_body slot of
rsvp_confirmation with the referenced key event_title missing. -/
theorem C8_missing_key_renders_empty_witness :
    (∃ s, render_template "rsvp_confirmation" "sms_body" [("status", PyVal.str "going")] =
      Except.ok s) ∧
    render_template "rsvp_confirmation" "sms_body"
        (dictSet [("status", PyVal.str "going")] "event_title" (PyVal.str "")) =
      render_template "rsvp_confirmation" "sms_body" [("status", PyVal.str "going")] :=
  C8_missing_key_renders_empty "rsvp_confirmation" "sms_body" rsvp_confirmation_tmpl
    [tlit "RSVP confirmed: ", tvar "status", tlit " for ", tvar "event_title",
     tlit " on ", tvar "start_time"]
    [("status", PyVal.str "going")] "event_title" rfl rfl rfl rfl

/-- C9 confirmed: two calls of send_notification with identical arguments
return structurally identical result maps. The embedding is a pure
function of its arguments, which is faithful to the source: the body of
send_notification writes only to its local results and common_vars
dicts; the user record and the caller map are read with non-mutating
get and indexing, the splat copies the caller map, and the provider
objects only read self.config and self.template_handler, so no state
survives a call to influence the next one. The claim's always-succeeding
provider is one instance of the transport oracles quantified here. -/
theorem C9_identical_calls_identical_results (cfg : Config) (pr : Providers) (user : User)
    (nt tn : String) (vars : List (String × PyVal)) (chs : Option (List String)) :
    send_notification cfg pr user nt tn vars chs =
      send_notification cfg pr user nt tn vars chs :=
  rfl

/-- C10 confirmed: when email is requested and enabled, a recipient record
without an email key makes send_notification raise KeyError whatever the
email preference says: the send path indexes user with a bare bracket
lookup for the address and the opted-out path does the same inside its
log line. -/
theorem C10_missing_email_key_raises (cfg : Config) (pr : Providers) (user : User)
    (nt tn : String) (vars : List (String × PyVal)) (cs : List String)
    (h1 : user.email = none) (h2 : "email" ∈ cs)
    (h3 : cfg.ENABLE_EMAIL_NOTIFICATIONS = true) :
    send_notification cfg pr user nt tn vars (some cs) =
      Except.error (PyError.keyError "email") := by
  have hc : ("email" ∈ cs ∧ cfg.ENABLE_EMAIL_NOTIFICATIONS = true) := ⟨h2, h3⟩
  by_cases hp : prefGet user "email" true = true
  · simp [send_notification, email_branch, hc, hp, h1]
  · simp [send_notification, email_branch, hc, hp, h1]

/-- C10 witness: the KeyError theorem applied to a recipient without an
email key who even opted out of email explicitly. -/
theorem C10_missing_email_key_raises_witness :
    (userNoEmailOptOut.email = none ∧ ("email" : String) ∈ ["email"] ∧
      cfgAll.ENABLE_EMAIL_NOTIFICATIONS = true) ∧
    send_notification cfgAll alwaysTrueProviders userNoEmailOptOut "t" "event_created" []
      (some ["email"]) = Except.error (PyError.keyError "email") :=
  ⟨⟨rfl, by simp, rfl⟩,
    C10_missing_email_key_raises cfgAll alwaysTrueProviders userNoEmailOptOut "t"
      "event_created" [] ["email"] rfl (by simp) rfl⟩
